import Mathlib

/-
Verification of the structured-data extraction core of the Dealer Nudging
System (pdf_processor_fixed.py): the field normalizer, the rule-based
pattern extractor, the language-model extraction adapter, and the
database persistence (reconciliation) section of process_pdf.

Python values flowing through the extraction pipeline are modelled by the
inductive type PyVal; Python floats are modelled as rationals (no claim in
scope depends on floating-point rounding).  The regular-expression scans of
the source are hand-translated matchers with the same leftmost, greedy,
backtracking semantics as the patterns used in the code.  Randomness
(random.randint, random.choice, random.random, uuid4) is made explicit as a
stream of draws threaded through the functions.
-/

/-! ## Character classes used by the regular expressions in the source -/

def isDigitC (c : Char) : Bool := '0' ≤ c && c ≤ '9'

def isUpperC (c : Char) : Bool := 'A' ≤ c && c ≤ 'Z'

def isLowerC (c : Char) : Bool := 'a' ≤ c && c ≤ 'z'

def isAlphaC (c : Char) : Bool := isUpperC c || isLowerC c

def isAlnumC (c : Char) : Bool := isAlphaC c || isDigitC c

/-- Python regex whitespace class: space, tab, newline, carriage return,
form feed, vertical tab. -/
def isWsC (c : Char) : Bool :=
  c = ' ' || c = '\t' || c = '\n' || c = '\x0d' || c = '\x0c' || c = '\x0b'

/-! ## Substring containment (Python `in` on strings) -/

/-- Does pat occur as a prefix of l (character lists)? -/
def isPfx : List Char → List Char → Bool
  | [], _ => true
  | _ :: _, [] => false
  | p :: ps, c :: cs => p = c && isPfx ps cs

/-- Does pat occur as a substring of hay (character lists)? -/
def hasSub : List Char → List Char → Bool
  | [], pat => pat.isEmpty
  | c :: cs, pat => isPfx pat (c :: cs) || hasSub cs pat

/-- Python `pat in s` for strings. -/
def containsSub (s pat : String) : Bool := hasSub s.toList pat.toList

/-! ## String utilities (structural reimplementations of split, strip,
join and replace, so that concrete instances reduce inside the kernel) -/

def trimWsChars (l : List Char) : List Char :=
  ((l.dropWhile isWsC).reverse.dropWhile isWsC).reverse

/-- Python str.strip(). -/
def pyStrip (s : String) : String := String.mk (trimWsChars s.toList)

/-- Python s.split(sep) for a nonempty separator, on character lists; the
fuel is the input length. -/
def splitOnAuxC (sep : List Char) : Nat → List Char → List Char → List (List Char)
  | 0, acc, _ => [acc.reverse]
  | _ + 1, acc, [] => [acc.reverse]
  | fuel + 1, acc, c :: cs =>
    if isPfx sep (c :: cs) then
      acc.reverse :: splitOnAuxC sep fuel [] (cs.drop (sep.length - 1))
    else splitOnAuxC sep fuel (c :: acc) cs

/-- Python s.split(sep). -/
def strSplitOn (s sep : String) : List String :=
  (splitOnAuxC sep.toList s.toList.length [] s.toList).map String.mk

/-- Python sep.join(parts). -/
def strJoin (sep : String) : List String → String
  | [] => ""
  | [x] => x
  | x :: y :: xs => x ++ sep ++ strJoin sep (y :: xs)

/-- Python s.replace(old, new) for a nonempty old, on character lists. -/
def replaceAuxC (old new : List Char) : Nat → List Char → List Char
  | 0, s => s
  | _ + 1, [] => []
  | fuel + 1, c :: cs =>
    if isPfx old (c :: cs) then new ++ replaceAuxC old new fuel (cs.drop (old.length - 1))
    else c :: replaceAuxC old new fuel cs

/-- Python s.replace(old, new). -/
def strReplace (s old new : String) : String :=
  String.mk (replaceAuxC old.toList new.toList s.toList.length s.toList)

/-! ## Python value model -/

inductive PyVal where
  | vNone : PyVal
  | vStr : String → PyVal
  | vInt : Int → PyVal
  | vFloat : Rat → PyVal
  | vBool : Bool → PyVal
  | vList : List PyVal → PyVal
  | vDict : List (String × PyVal) → PyVal

open PyVal

/-- The target types normalize_field is called with in the source
(str, int, float). -/
inductive PyType where
  | tStr : PyType
  | tInt : PyType
  | tFloat : PyType

/-- Rendering of a Python float.  Python float repr is abstracted: the exact
digit string of a float is not relied on by any claim in scope. -/
def ratRepr (q : Rat) : String :=
  if q.den = 1 then toString q.num ++ ".0"
  else toString q.num ++ "/" ++ toString q.den

/-- Minimal JSON string quoting (escaping of quote and backslash). -/
def jsonQuote (s : String) : String :=
  "\"" ++ String.mk (s.toList.flatMap fun c =>
    if c = '"' || c = '\\' then ['\\', c] else [c]) ++ "\""

mutual

/-- json.dumps on the Python value model (default separators). -/
def jsonDumps : PyVal → String
  | vNone => "null"
  | vBool true => "true"
  | vBool false => "false"
  | vInt n => toString n
  | vFloat q => ratRepr q
  | vStr s => jsonQuote s
  | vList xs => "[" ++ jsonDumpsList xs ++ "]"
  | vDict kvs => "\x7b" ++ jsonDumpsDict kvs ++ "\x7d"

def jsonDumpsList : List PyVal → String
  | [] => ""
  | [x] => jsonDumps x
  | x :: y :: xs => jsonDumps x ++ ", " ++ jsonDumpsList (y :: xs)

def jsonDumpsDict : List (String × PyVal) → String
  | [] => ""
  | [(k, v)] => jsonQuote k ++ ": " ++ jsonDumps v
  | (k, v) :: y :: xs => jsonQuote k ++ ": " ++ jsonDumps v ++ ", " ++ jsonDumpsDict (y :: xs)

end

mutual

/-- Python repr of a value (used by str() on containers). -/
def pyRepr : PyVal → String
  | vNone => "None"
  | vBool true => "True"
  | vBool false => "False"
  | vInt n => toString n
  | vFloat q => ratRepr q
  | vStr s => String.singleton '\x27' ++ s ++ String.singleton '\x27'
  | vList xs => "[" ++ pyReprList xs ++ "]"
  | vDict kvs => "\x7b" ++ pyReprDict kvs ++ "\x7d"

def pyReprList : List PyVal → String
  | [] => ""
  | [x] => pyRepr x
  | x :: y :: xs => pyRepr x ++ ", " ++ pyReprList (y :: xs)

def pyReprDict : List (String × PyVal) → String
  | [] => ""
  | [(k, v)] => String.singleton '\x27' ++ k ++ String.singleton '\x27' ++ ": " ++ pyRepr v
  | (k, v) :: y :: xs =>
    String.singleton '\x27' ++ k ++ String.singleton '\x27' ++ ": " ++ pyRepr v ++ ", " ++
      pyReprDict (y :: xs)

end

/-- Python str() of a value. -/
def pyStr : PyVal → String
  | vStr s => s
  | vNone => "None"
  | vBool true => "True"
  | vBool false => "False"
  | vInt n => toString n
  | vFloat q => ratRepr q
  | vList xs => pyRepr (vList xs)
  | vDict kvs => pyRepr (vDict kvs)

/-- Python truthiness. -/
def pyTruthy : PyVal → Bool
  | vNone => false
  | vBool b => b
  | vInt n => decide (n ≠ 0)
  | vFloat q => decide (q ≠ 0)
  | vStr s => decide (s ≠ "")
  | vList xs => !xs.isEmpty
  | vDict kvs => !kvs.isEmpty

/-! ## Numeric parsing (Python int()/float() on strings, common core:
optional surrounding whitespace, optional sign, decimal digits; float also
accepts a fractional part.  Underscores, exponents and non-ASCII digits are
not modelled; no claim in scope depends on them.) -/

def digitsToNat (l : List Char) : Nat :=
  l.foldl (fun acc c => acc * 10 + (c.toNat - 48)) 0

def parseUnsignedInt (l : List Char) : Option Nat :=
  if l ≠ [] && l.all isDigitC then some (digitsToNat l) else none

/-- Python int(s): None on ValueError. -/
def pyIntOfString (s : String) : Option Int :=
  match trimWsChars s.toList with
  | '-' :: ds => (parseUnsignedInt ds).map fun n => -(n : Int)
  | '+' :: ds => (parseUnsignedInt ds).map fun n => (n : Int)
  | ds => (parseUnsignedInt ds).map fun n => (n : Int)

def parseUnsignedFloat (l : List Char) : Option Rat :=
  let ip := l.takeWhile isDigitC
  let rest := l.dropWhile isDigitC
  match rest with
  | [] => if ip.isEmpty then none else some ((digitsToNat ip : Nat) : Rat)
  | '.' :: fr =>
    if fr.all isDigitC && (!ip.isEmpty || !fr.isEmpty) then
      some (((digitsToNat ip : Nat) : Rat) +
        (if fr.isEmpty then 0 else ((digitsToNat fr : Nat) : Rat) / ((10 : Rat) ^ fr.length)))
    else none
  | _ => none

/-- Python float(s): None on ValueError. -/
def pyFloatOfString (s : String) : Option Rat :=
  match trimWsChars s.toList with
  | '-' :: ds => (parseUnsignedFloat ds).map fun q => -q
  | '+' :: ds => parseUnsignedFloat ds
  | ds => parseUnsignedFloat ds

/-- Python int() truncates floats toward zero. -/
def ratTrunc (q : Rat) : Int := q.num / (q.den : Int)

/-! ## Field Normalizer (normalize_field, pdf_processor_fixed.py lines 315-339) -/

/-- Direct type coercion field_type(field) for a scalar value; none models
a ValueError or TypeError (caught by normalize_field). -/
def coerceVal : PyType → PyVal → Option PyVal
  | PyType.tStr, v => some (vStr (pyStr v))
  | PyType.tInt, vInt n => some (vInt n)
  | PyType.tInt, vFloat q => some (vInt (ratTrunc q))
  | PyType.tInt, vBool b => some (vInt (if b then 1 else 0))
  | PyType.tInt, vStr s => (pyIntOfString s).map vInt
  | PyType.tInt, _ => none
  | PyType.tFloat, vInt n => some (vFloat (n : Rat))
  | PyType.tFloat, vFloat q => some (vFloat q)
  | PyType.tFloat, vBool b => some (vFloat (if b then 1 else 0))
  | PyType.tFloat, vStr s => (pyFloatOfString s).map vFloat
  | PyType.tFloat, _ => none

/-- normalize_field(field, field_type, default): faithful translation of
pdf_processor_fixed.py lines 315-339.  Exceptions raised and caught in the
source appear as the none branch of coerceVal. -/
def normalize_field (field : PyVal) (ft : PyType) (default : PyVal) : PyVal :=
  match field with
  | vNone => default
  | vList xs =>
    match ft with
    | PyType.tStr => vStr (strJoin ", " (xs.map pyStr))
    | _ =>
      match xs with
      | [] => default
      | x :: _ =>
        match coerceVal ft x with
        | some r => r
        | none => default
  | vDict kvs =>
    match ft with
    | PyType.tStr => vStr (jsonDumps (vDict kvs))
    | _ => default
  | v =>
    match coerceVal ft v with
    | some r => r
    | none => default

/-- Does a value inhabit the given target type? -/
def pyTypeMatches : PyType → PyVal → Bool
  | PyType.tStr, vStr _ => true
  | PyType.tInt, vInt _ => true
  | PyType.tFloat, vFloat _ => true
  | _, _ => false

lemma coerceVal_matches (t : PyType) (v r : PyVal) (h : coerceVal t v = some r) :
    pyTypeMatches t r = true := by
  cases t <;> cases v <;> simp [coerceVal] at h <;> first
    | (subst h; rfl)
    | (obtain ⟨n, _, h2⟩ := h; subst h2; rfl)

/-- Claim C2: normalize_field is pure and total: it is a total Lean
function (hence terminates and raises nothing), and for every value, target
type and default its result is either the literal default that was passed in
or a value of the target type. -/
theorem normalize_field_total (v : PyVal) (t : PyType) (d : PyVal) :
    normalize_field v t d = d ∨ pyTypeMatches t (normalize_field v t d) = true := by
  cases v with
  | vNone => left; rfl
  | vList xs =>
    cases t with
    | tStr => right; rfl
    | tInt =>
      cases xs with
      | nil => left; rfl
      | cons x xs =>
        cases h : coerceVal PyType.tInt x with
        | none => left; simp [normalize_field, h]
        | some r => right; simp [normalize_field, h, coerceVal_matches _ _ _ h]
    | tFloat =>
      cases xs with
      | nil => left; rfl
      | cons x xs =>
        cases h : coerceVal PyType.tFloat x with
        | none => left; simp [normalize_field, h]
        | some r => right; simp [normalize_field, h, coerceVal_matches _ _ _ h]
  | vDict kvs =>
    cases t with
    | tStr => right; rfl
    | tInt => left; rfl
    | tFloat => left; rfl
  | vStr s =>
    cases h : coerceVal t (vStr s) with
    | none => left; simp [normalize_field, h]
    | some r => right; simp [normalize_field, h, coerceVal_matches _ _ _ h]
  | vInt n =>
    cases h : coerceVal t (vInt n) with
    | none => left; simp [normalize_field, h]
    | some r => right; simp [normalize_field, h, coerceVal_matches _ _ _ h]
  | vFloat q =>
    cases h : coerceVal t (vFloat q) with
    | none => left; simp [normalize_field, h]
    | some r => right; simp [normalize_field, h, coerceVal_matches _ _ _ h]
  | vBool b =>
    cases h : coerceVal t (vBool b) with
    | none => left; simp [normalize_field, h]
    | some r => right; simp [normalize_field, h, coerceVal_matches _ _ _ h]

/-! ## Explicit randomness

The source draws from the process-global random module (randint, choice,
random) and from uuid4.  All draws are modelled as successive reads from an
abstract stream of naturals. -/

structure Rng where
  stream : Nat → Nat
  pos : Nat

def Rng.draw (g : Rng) : Nat × Rng := (g.stream g.pos, ⟨g.stream, g.pos + 1⟩)

/-- random.randint(lo, hi): both endpoints included. -/
def randint (lo hi : Nat) (g : Rng) : Nat × Rng :=
  let (n, g2) := g.draw
  (lo + n % (hi + 1 - lo), g2)

/-- random.choice on a list of naturals. -/
def randchoiceNat (xs : List Nat) (g : Rng) : Nat × Rng :=
  let (n, g2) := g.draw
  (xs.getD (n % xs.length) 0, g2)

/-- random.choice on a list of strings. -/
def randchoiceStr (xs : List String) (g : Rng) : String × Rng :=
  let (n, g2) := g.draw
  (xs.getD (n % xs.length) "", g2)

/-- Outcome of the comparison random.random() > 0.5. -/
def randGtHalf (g : Rng) : Bool × Rng :=
  let (n, g2) := g.draw
  (n % 2 = 1, g2)

def hexDigitChar (n : Nat) : Char :=
  if n < 10 then Char.ofNat (48 + n) else Char.ofNat (87 + (n - 10))

/-- uuid.uuid4().hex[:8] modelled as eight hex digits from one draw. -/
def uuidHex8 (g : Rng) : String × Rng :=
  let (n, g2) := g.draw
  (String.mk (((List.range 8).reverse).map fun i => hexDigitChar (n / 16 ^ i % 16)), g2)

/-! ## Regular-expression matchers

Each matcher tries to match its pattern at the head of a character list and
returns the matched text (for findall: the captured group) together with the
remaining input.  They reproduce the leftmost, greedy, backtracking
semantics of the patterns in the source. -/

/-- Longest prefix of characters satisfying p, of length at most n. -/
def takeUpTo (p : Char → Bool) : Nat → List Char → List Char × List Char
  | 0, s => ([], s)
  | _ + 1, [] => ([], [])
  | n + 1, c :: cs =>
    if p c then
      let (t, r) := takeUpTo p n cs
      (c :: t, r)
    else ([], c :: cs)

def dateSepOk (c : Char) : Bool := c = '/' || c = '-'

/-- Matcher for the date pattern (one or two digits, separator, one or two
digits, separator, two to four digits), with / and - as separators. -/
def dateMatchAt (s : List Char) : Option (List Char × List Char) :=
  let (d1, r1) := takeUpTo isDigitC 2 s
  if d1.isEmpty then none else
  match r1 with
  | [] => none
  | sep1 :: r2 =>
    if dateSepOk sep1 then
      let (d2, r3) := takeUpTo isDigitC 2 r2
      if d2.isEmpty then none else
      match r3 with
      | [] => none
      | sep2 :: r4 =>
        if dateSepOk sep2 then
          let (d3, r5) := takeUpTo isDigitC 4 r4
          if d3.length < 2 then none
          else some (d1 ++ sep1 :: d2 ++ sep2 :: d3, r5)
        else none
    else none

/-- Matcher for the product-model pattern: an uppercase letter, one or more
digits, an optional trailing uppercase letter. -/
def modelMatchAt : List Char → Option (List Char × List Char)
  | [] => none
  | c :: cs =>
    if isUpperC c then
      let ds := cs.takeWhile isDigitC
      let r := cs.dropWhile isDigitC
      if ds.isEmpty then none
      else
        match r with
        | [] => some (c :: ds, [])
        | u :: r2 => if isUpperC u then some (c :: ds ++ [u], r2) else some (c :: ds, u :: r2)
    else none

/-- Case-sensitive literal match returning the rest of the input. -/
def litMatch : List Char → List Char → Option (List Char)
  | [], s => some s
  | _ :: _, [] => none
  | l :: ls, c :: cs => if c = l then litMatch ls cs else none

/-- Matcher for the Galaxy model pattern: the literal Galaxy, a space, then
one or more alphanumeric characters. -/
def galaxyMatchAt (s : List Char) : Option (List Char × List Char) :=
  match litMatch ("Galaxy ".toList) s with
  | none => none
  | some r =>
    let w := r.takeWhile isAlnumC
    let r2 := r.dropWhile isAlnumC
    if w.isEmpty then none else some ("Galaxy ".toList ++ w, r2)

/-- Matcher for the Tab model pattern. -/
def tabMatchAt (s : List Char) : Option (List Char × List Char) :=
  match litMatch ("Tab ".toList) s with
  | none => none
  | some r =>
    let w := r.takeWhile isAlnumC
    let r2 := r.dropWhile isAlnumC
    if w.isEmpty then none else some ("Tab ".toList ++ w, r2)

/-- Zero or more groups of a comma followed by exactly three digits. -/
def amountGroups : List Char → List Char × List Char
  | ',' :: a :: b :: c :: rest =>
    if isDigitC a && isDigitC b && isDigitC c then
      let (g, r) := amountGroups rest
      (',' :: a :: b :: c :: g, r)
    else ([], ',' :: a :: b :: c :: rest)
  | s => ([], s)

/-- Optional decimal part: a dot followed by one or two digits, greedy. -/
def amountDecimal : List Char → List Char × List Char
  | '.' :: a :: b :: rest =>
    if isDigitC a then
      if isDigitC b then ('.' :: a :: [b], rest) else ('.' :: [a], b :: rest)
    else ([], '.' :: a :: b :: rest)
  | '.' :: [a] =>
    if isDigitC a then ('.' :: [a], []) else ([], ['.', a])
  | s => ([], s)

/-- The captured numeric group of the payout-amount pattern: one to three
digits, comma-separated three-digit groups, optional decimals. -/
def amountNumFrom (s : List Char) : Option (List Char × List Char) :=
  let (d1, r1) := takeUpTo isDigitC 3 s
  if d1.isEmpty then none else
  let (gs, r2) := amountGroups r1
  let (dec, r3) := amountDecimal r2
  some (d1 ++ gs ++ dec, r3)

/-- Matcher for the amount pattern: the prefixes Rs., Rs or INR (tried in
that backtracking order), optional whitespace, then the captured numeric
group. -/
def amountMatchAt (s : List Char) : Option (List Char × List Char) :=
  (do amountNumFrom ((← litMatch "Rs.".toList s).dropWhile isWsC)) <|>
  (do amountNumFrom ((← litMatch "Rs".toList s).dropWhile isWsC)) <|>
  (do amountNumFrom ((← litMatch "INR".toList s).dropWhile isWsC))

/-- Lowercasing of ASCII letters (the IGNORECASE flag of the free-item
patterns). -/
def lowerC (c : Char) : Char :=
  if isUpperC c then Char.ofNat (c.toNat + 32) else c

/-- Case-insensitive literal match returning the matched source text and
the rest. -/
def litMatchCI : List Char → List Char → Option (List Char × List Char)
  | [], s => some ([], s)
  | _ :: _, [] => none
  | l :: ls, c :: cs =>
    if lowerC c = lowerC l then
      (litMatchCI ls cs).map fun p => (c :: p.1, p.2)
    else none

/-- The item keywords of the free-item patterns, in alternation order. -/
def freeItemKws : List String :=
  ["Buds", "Watch", "Headphone", "Earphone", "Charger", "Cover", "Case", "Adapter"]

/-- First keyword of the alternation matching case-insensitively at the
head of the input. -/
def kwMatchAt (s : List Char) : Option (List Char × List Char) :=
  freeItemKws.firstM fun kw => litMatchCI kw.toList s

/-- Character class of the free-item capture: letters, digits, whitespace. -/
def isFreeClassC (c : Char) : Bool := isAlnumC c || isWsC c

/-- Greedy backtracking search for the body of the free-item capture: at
least one class character, then a keyword (the keyword start is chosen
rightmost, matching the greedy plus), then trailing class characters. -/
def freeBodyTry (body : List Char) : Nat → Option (List Char × List Char)
  | 0 => none
  | q + 1 =>
    match kwMatchAt (body.drop (q + 1)) with
    | some (kw, rest) =>
      let tail := rest.takeWhile isFreeClassC
      let rest2 := rest.dropWhile isFreeClassC
      some (body.take (q + 1) ++ kw ++ tail, rest2)
    | none => freeBodyTry body q

def freeBodyMatch (body : List Char) : Option (List Char × List Char) :=
  freeBodyTry body (body.takeWhile isFreeClassC).length

/-- Greedy backtracking over the mandatory whitespace run after the lead
keyword (longest run first, at least one character). -/
def freeWsTry (r : List Char) : Nat → Option (List Char × List Char)
  | 0 => none
  | k + 1 =>
    match freeBodyMatch (r.drop (k + 1)) with
    | some res => some res
    | none => freeWsTry r k

/-- Matcher for a free-item pattern with the given lead keyword (free,
complimentary or included), case-insensitive; returns the captured group. -/
def freeMatchAtGen (lead : String) (s : List Char) : Option (List Char × List Char) :=
  match litMatchCI lead.toList s with
  | none => none
  | some (_, r) => freeWsTry r (r.takeWhile isWsC).length

/-! ## findall -/

/-- re.findall: scan left to right, at each position try the matcher, on a
match record the result and continue after it.  All matchers in scope
consume at least one character, so the fuel (the input length) suffices. -/
def findallAux (m : List Char → Option (List Char × List Char)) :
    Nat → List Char → List String
  | 0, _ => []
  | _ + 1, [] => []
  | fuel + 1, c :: cs =>
    match m (c :: cs) with
    | some (g, rest) => String.mk g :: findallAux m fuel rest
    | none => findallAux m fuel cs

def findall (m : List Char → Option (List Char × List Char)) (s : String) : List String :=
  findallAux m s.toList.length s.toList

def findallDate (text : String) : List String := findall dateMatchAt text

def findallModel (text : String) : List String := findall modelMatchAt text

def findallGalaxy (text : String) : List String := findall galaxyMatchAt text

def findallTab (text : String) : List String := findall tabMatchAt text

def findallAmount (text : String) : List String := findall amountMatchAt text

/-- The three free-item patterns, results concatenated in source order. -/
def free_items_of (text : String) : List String :=
  findall (freeMatchAtGen "free") text ++
  findall (freeMatchAtGen "complimentary") text ++
  findall (freeMatchAtGen "included") text

/-! ## Extraction result model

The source builds plain dicts.  Fields are modelled as Option PyVal where
none means the key is absent from the dict (relevant because .get with a
default distinguishes an absent key from a None value). -/

structure ExtractedProduct where
  product_name : Option PyVal
  product_code : Option PyVal
  product_category : Option PyVal
  product_subcategory : Option PyVal
  ram : Option PyVal
  storage : Option PyVal
  connectivity : Option PyVal
  support_type : Option PyVal
  payout_type : Option PyVal
  payout_amount : Option PyVal
  payout_unit : Option PyVal
  dealer_contribution : Option PyVal
  total_payout : Option PyVal
  is_bundle_offer : Option PyVal
  bundle_price : Option PyVal
  is_upgrade_offer : Option PyVal
  free_item_description : Option PyVal
  dealer_price_dp : Option PyVal
  mrp : Option PyVal
  is_dealer_incentive : Option PyVal
  is_slab_based : Option PyVal

structure ExtractedRule where
  rule_type : Option PyVal
  rule_description : Option PyVal
  rule_value : Option PyVal

structure StructuredData where
  scheme_name : Option PyVal
  scheme_type : Option PyVal
  scheme_period_start : Option PyVal
  scheme_period_end : Option PyVal
  applicable_region : Option PyVal
  dealer_type_eligibility : Option PyVal
  products : List ExtractedProduct
  scheme_rules : List ExtractedRule

/-! ## Pattern Extractor (rule_based_extraction, lines 430-633) -/

/-- Scheme name from the document name (lines 433-435). -/
def scheme_name_of (docName : String) : String :=
  let s0 := pyStrip ((strSplitOn docName "_").headD "")
  if containsSub s0 "." then
    pyStrip (strJoin " " ((strSplitOn s0 ".").drop 1))
  else s0

/-- Scheme type keyword scan (lines 437-444). -/
def scheme_type_of (docName text : String) : String :=
  if containsSub docName "RCM" || containsSub text "RCM" then "RCM"
  else if containsSub docName "Upgrade Program" || containsSub text "Upgrade" then
    "Upgrade Program"
  else if containsSub docName "Bundle" || containsSub text "Bundle" then "Bundle Offer"
  else "Special Support"

/-- str.zfill(2). -/
def zfill2 (s : String) : String :=
  if s.length < 2 then String.mk (List.replicate (2 - s.length) '0') ++ s else s

/-- Two-digit years are prefixed with 20 (lines 462-463 and friends). -/
def fixYear (y : String) : String := if y.length = 2 then "20" ++ y else y

/-- Reformatting of one date token (the body of the per-date branches in
lines 459-480): ok none means neither separator occurred so the field is
left untouched; error models the IndexError raised when the token does not
split into three parts (caught by the bare except of line 481). -/
def parseDateToken (d : String) : Except Unit (Option String) :=
  if containsSub d "/" then
    match strSplitOn d "/" with
    | p0 :: p1 :: p2 :: _ =>
      Except.ok (some (fixYear p2 ++ "-" ++ zfill2 p1 ++ "-" ++ zfill2 p0))
    | _ => Except.error ()
  else if containsSub d "-" then
    match strSplitOn d "-" with
    | p0 :: p1 :: p2 :: _ =>
      Except.ok (some (fixYear p2 ++ "-" ++ zfill2 p1 ++ "-" ++ zfill2 p0))
    | _ => Except.error ()
  else Except.ok none

/-- The date-normalization block (lines 450-483).  The bare except keeps
whatever was assigned before the failure: a failure on the second date
keeps the already reassigned start value. -/
def computePeriod (dates : List String) (defS defE : String) : String × String :=
  if 2 ≤ dates.length then
    match parseDateToken (dates.getD 0 "") with
    | Except.error _ => (defS, defE)
    | Except.ok os =>
      let s := os.getD defS
      match parseDateToken (dates.getD 1 "") with
      | Except.error _ => (s, defE)
      | Except.ok oe => (s, oe.getD defE)
  else (defS, defE)

/-- Region keyword scan (lines 485-498). -/
def region_of (text : String) : String :=
  if containsSub text "North" && containsSub text "East" then "North and East"
  else if containsSub text "South" && containsSub text "West" then "South and West"
  else if containsSub text "North" then "North"
  else if containsSub text "South" then "South"
  else if containsSub text "East" then "East"
  else if containsSub text "West" then "West"
  else "All India"

/-- Dealer eligibility keyword scan (lines 500-507). -/
def dealer_type_of (text : String) : String :=
  if containsSub text "MBO" then "MBO"
  else if containsSub text "GT" then "GT"
  else if containsSub text "SEZ" && containsSub text "Blue Wave" then "SEZ and Blue Wave"
  else "All Dealers"

/-- Distinct model matches.  The source collects matches into a set and
iterates it; set iteration order is modelled as first-occurrence order of
the concatenated per-pattern match lists. -/
def dedupFirstAux (seen : List String) : List String → List String
  | [] => []
  | x :: xs =>
    if seen.contains x then dedupFirstAux seen xs
    else x :: dedupFirstAux (x :: seen) xs

def found_models (text : String) : List String :=
  dedupFirstAux [] (findallModel text ++ findallGalaxy text ++ findallTab text)

/-- The scheme-type-keyed default free items (lines 541-544). -/
def default_free_item (ty : String) : Option String :=
  if ty = "Bundle Offer" then some "Galaxy Buds2 Pro"
  else if ty = "Upgrade Program" then some "Galaxy Watch4"
  else none

/-- The free-item choice for product i (lines 548-553): a positional match
if available, otherwise with probability one half the scheme-type default
(the draw happens only when the scheme type has a default, mirroring the
short-circuit conjunction). -/
def pick_free_item (ty : String) (free_items : List String) (i : Nat) (g : Rng) :
    Option String × Rng :=
  if i < free_items.length then (some (pyStrip (free_items.getD i "")), g)
  else
    match default_free_item ty with
    | some d =>
      let bg := randGtHalf g
      (if bg.1 then some d else none, bg.2)
    | none => (none, g)

/-- Python float of an amount token with commas removed (line 565); the
token shape is guaranteed by the amount pattern, so the fallback 0 of the
total parse is unreachable. -/
def amountToRat (s : String) : Rat :=
  (pyFloatOfString (String.mk (s.toList.filter fun c => c ≠ ','))).getD 0

/-- One synthesized product entry for a matched model (lines 547-574), with
draws in source evaluation order: free item, product code, ram, storage,
connectivity, payout amount, total payout. -/
def build_product (ty : String) (free_items amounts : List String) (i : Nat)
    (model : String) (g : Rng) : ExtractedProduct × Rng :=
  let fg := pick_free_item ty free_items i g
  let cg := randint 1000 9999 fg.2
  let rg := randchoiceNat [4, 6, 8, 12] cg.2
  let sg := randchoiceNat [64, 128, 256, 512] rg.2
  let ng := randchoiceStr ["4G", "5G", "4G/5G"] sg.2
  let pay :=
    if i < amounts.length then (vFloat (amountToRat (amounts.getD i "")), ng.2)
    else
      let t := randint 500 5000 ng.2
      (vInt (t.1 : Int), t.2)
  let tot :=
    if i < amounts.length then (vFloat (amountToRat (amounts.getD i "")), pay.2)
    else
      let t := randint 500 5000 pay.2
      (vInt (t.1 : Int), t.2)
  (⟨some (vStr model),
    some (vStr ("CODE-" ++ strReplace model " " "" ++ "-" ++ toString cg.1)),
    some (vStr (if containsSub model "Tab" then "Tablet" else "Mobile")),
    some (vStr (if isAlphaC ((model.toList).headD ' ') then
      String.singleton ((model.toList).headD ' ') ++ " Series" else "Other")),
    some (vStr (toString rg.1 ++ "GB")),
    some (vStr (toString sg.1 ++ "GB")),
    some (vStr ng.1),
    some (vStr ty),
    some (vStr "Fixed"),
    some pay.1,
    some (vStr "INR"),
    some (vInt 0),
    some tot.1,
    some (vBool (ty = "Bundle Offer")),
    some vNone,
    some (vBool (ty = "Upgrade Program")),
    some (match fg.1 with | some s => vStr s | none => vNone),
    none, none, none, none⟩, tot.2)

/-- The loop over found models (lines 547-574). -/
def build_products (ty : String) (free_items amounts : List String) :
    List String → Nat → Rng → List ExtractedProduct × Rng
  | [], _, g => ([], g)
  | m :: ms, i, g =>
    let pg := build_product ty free_items amounts i m g
    let rest := build_products ty free_items amounts ms (i + 1) pg.2
    (pg.1 :: rest.1, rest.2)

/-- The default product synthesized when no model was found (lines 576-605). -/
def default_product (text ty : String) (free_items : List String) (g : Rng) :
    ExtractedProduct × Rng :=
  let defaultModel := if containsSub text "S21 FE" then "Galaxy S21 FE" else "Galaxy S23"
  let fg :=
    if free_items.isEmpty then
      match default_free_item ty with
      | some d =>
        let bg := randGtHalf g
        (if bg.1 then some d else none, bg.2)
      | none => (none, g)
    else (some (pyStrip (free_items.getD 0 "")), g)
  let cg := randint 1000 9999 fg.2
  (⟨some (vStr defaultModel),
    some (vStr ("CODE-" ++ strReplace defaultModel " " "" ++ "-" ++ toString cg.1)),
    some (vStr "Mobile"),
    some (vStr "S Series"),
    some (vStr "8GB"),
    some (vStr "128GB"),
    some (vStr "5G"),
    some (vStr ty),
    some (vStr "Fixed"),
    some (vFloat 2000),
    some (vStr "INR"),
    some (vInt 0),
    some (vFloat 2000),
    some (vBool (ty = "Bundle Offer")),
    some vNone,
    some (vBool (ty = "Upgrade Program")),
    some (match fg.1 with | some s => vStr s | none => vNone),
    none, none, none, none⟩, cg.2)

/-- The two synthesized rules (lines 608-619). -/
def mkRules (dealerType ps pe : String) : List ExtractedRule :=
  [⟨some (vStr "Eligibility"),
    some (vStr ("Applicable for " ++ dealerType)),
    some (vStr dealerType)⟩,
   ⟨some (vStr "Period"),
    some (vStr ("Valid from " ++ ps ++ " to " ++ pe)),
    some (vStr (ps ++ " to " ++ pe))⟩]

/-- rule_based_extraction(text, document_name) (lines 430-633), returning
the structured record together with the advanced random stream. -/
def rule_based_extraction (text docName : String) (g : Rng) : StructuredData × Rng :=
  let schemeName := scheme_name_of docName
  let ty := scheme_type_of docName text
  let pp := computePeriod (findallDate text) "2023-01-01" "2023-12-31"
  let region := region_of text
  let dealerType := dealer_type_of text
  let models := found_models text
  let amounts := findallAmount text
  let freeItems := free_items_of text
  let bp := build_products ty freeItems amounts models 0 g
  let pr :=
    if bp.1.isEmpty then
      let dp := default_product text ty freeItems bp.2
      ([dp.1], dp.2)
    else bp
  (⟨some (vStr schemeName), some (vStr ty), some (vStr pp.1), some (vStr pp.2),
    some (vStr region), some (vStr dealerType), pr.1, mkRules dealerType pp.1 pp.2⟩, pr.2)

/-! ## Language-Model Extraction Adapter
(extract_structured_data_from_text, lines 342-427)

The external service call together with the response-decoding chain of the
inner try block (invoke_model, reading and JSON-decoding the body, indexing
content[0].text, stripping a code fence, JSON-decoding the result) is
modelled as one fallible client function; the error constructors name the
stage at which the chain can fail.  Any such failure is caught by the inner
except and control falls through to rule_based_extraction. -/

inductive InvokeError where
  | network : InvokeError
  | malformedBody : InvokeError
  | missingField : InvokeError
  | jsonParse : InvokeError

structure LmClient where
  invoke : String → String → Except InvokeError StructuredData

/-- The prompt of lines 347-386; the fixed instructional text is
abbreviated to its opening words, which no claim in scope depends on. -/
def buildPrompt (docName text : String) : String :=
  "You are a specialized AI for extracting structured data from mobile phone scheme documents. Document: "
    ++ docName ++ " Here is the document text: " ++ text
    ++ " Return only the JSON object without any additional text."

/-- extract_structured_data_from_text.  The primary path runs only when
both the client and the inference profile identifier are truthy; on any
failure of the invocation chain, and on the missing-configuration path, the
call delegates to rule_based_extraction.  The none result mirrors the outer
except of lines 425-427, which is unreachable because
rule_based_extraction is total. -/
def extract_structured_data_from_text (text docName : String)
    (client : Option LmClient) (arn : Option String) (g : Rng) :
    Option StructuredData × Rng :=
  match client, arn with
  | some c, some a =>
    if a = "" then
      let r := rule_based_extraction text docName g
      (some r.1, r.2)
    else
      match c.invoke a (buildPrompt docName text) with
      | Except.ok sd => (some sd, g)
      | Except.error _ =>
        let r := rule_based_extraction text docName g
        (some r.1, r.2)
  | _, _ =>
    let r := rule_based_extraction text docName g
    (some r.1, r.2)

def exceptIsOk : Except InvokeError StructuredData → Bool
  | Except.ok _ => true
  | Except.error _ => false

/-! ## Record Reconciler / persistence section of process_pdf
(lines 897-1037)

The relational store is modelled as in-memory tables with autoincrement
counters.  Each INSERT consults a failure oracle indexed by the running
operation count (modelling constraint violations or connection loss at that
write); a triggered failure raises, reaching the except branch of lines
1031-1034, which rolls the transaction back (no committed change) and
returns False. -/

structure SchemeRow where
  scheme_id : Nat
  scheme_name : PyVal
  scheme_type : PyVal
  scheme_period_start : PyVal
  scheme_period_end : PyVal
  applicable_region : PyVal
  dealer_type_eligibility : PyVal
  scheme_document_name : String
  raw_extracted_text_path : String
  deal_status : String
  approval_status : String

structure ProductRow where
  product_id : Nat
  product_name : PyVal
  product_code : PyVal
  product_category : PyVal
  product_subcategory : PyVal
  ram : PyVal
  storage : PyVal
  connectivity : PyVal
  dealer_price_dp : PyVal
  mrp : PyVal

structure SchemeProductRow where
  scheme_id : Nat
  product_id : Nat
  support_type : PyVal
  payout_type : PyVal
  payout_amount : PyVal
  payout_unit : PyVal
  dealer_contribution : PyVal
  total_payout : PyVal
  is_dealer_incentive : Nat
  is_bundle_offer : Nat
  bundle_price : PyVal
  is_upgrade_offer : Nat
  is_slab_based : Nat
  free_item_description : PyVal

structure RuleRow where
  scheme_id : Nat
  rule_type : PyVal
  rule_description : PyVal
  rule_value : PyVal

structure DB where
  schemes : List SchemeRow
  products : List ProductRow
  scheme_products : List SchemeProductRow
  scheme_rules : List RuleRow
  next_scheme_id : Nat
  next_product_id : Nat

/-- SQLite comparison of a stored value with a bound parameter: text
compares with text, numeric values (integers, floats, booleans bound as
integers) compare numerically, NULL compares equal to nothing. -/
def sqlNumOf : PyVal → Option Rat
  | vInt n => some (n : Rat)
  | vFloat q => some q
  | vBool b => some (if b then 1 else 0)
  | _ => none

def sqlEqVal (a b : PyVal) : Bool :=
  match a, b with
  | vStr x, vStr y => x = y
  | _, _ =>
    match sqlNumOf a, sqlNumOf b with
    | some x, some y => decide (x = y)
    | _, _ => false

abbrev FailOracle := Nat → Bool

structure TxState where
  db : DB
  op : Nat
  g : Rng

/-- One INSERT: consult the failure oracle at the current operation index,
then apply the row update. -/
def txInsert (fail : FailOracle) (upd : DB → DB) (st : TxState) : Except Unit TxState :=
  if fail st.op then Except.error () else Except.ok ⟨upd st.db, st.op + 1, st.g⟩

/-- dict.get(key): an absent key yields None. -/
def optV (o : Option PyVal) : PyVal := o.getD vNone

/-- The existing-product lookup and conditional insert (lines 942-969):
the SELECT by exact (product_name, product_code) match returns the first
matching row, whose identity is reused without touching the table;
otherwise a new catalog row is inserted. -/
def lookupOrInsertProduct (fail : FailOracle)
    (name code category subcat ram storage conn dp mrp : PyVal)
    (st : TxState) : Except Unit (Nat × TxState) :=
  match st.db.products.find? (fun r => sqlEqVal r.product_name name &&
      sqlEqVal r.product_code code) with
  | some row => Except.ok (row.product_id, st)
  | none =>
    let pid := st.db.next_product_id
    (txInsert fail (fun db =>
      { db with
        products := db.products ++
          [⟨pid, name, code, category, subcat, ram, storage, conn, dp, mrp⟩],
        next_product_id := pid + 1 }) st).map fun st2 => (pid, st2)

/-- Per-product body of the products loop (lines 930-1007): normalize the
catalog fields (the defaults draw uuid4 tokens and random prices eagerly,
as Python evaluates argument expressions), reconcile against the catalog,
normalize the association fields, insert the scheme_products row. -/
def processProduct (fail : FailOracle) (schemeId : Nat) (schemeTypeV : PyVal)
    (p : ExtractedProduct) (st : TxState) : Except Unit TxState :=
  let g := st.g
  let (u1, g) := uuidHex8 g
  let name := normalize_field (optV p.product_name) PyType.tStr (vStr ("Product " ++ u1))
  let (u2, g) := uuidHex8 g
  let code := normalize_field (optV p.product_code) PyType.tStr (vStr ("CODE-" ++ u2))
  let category := normalize_field (optV p.product_category) PyType.tStr (vStr "Mobile")
  let subcat := normalize_field (optV p.product_subcategory) PyType.tStr (vStr "Other")
  let ram := normalize_field (optV p.ram) PyType.tStr vNone
  let storage := normalize_field (optV p.storage) PyType.tStr vNone
  let conn := normalize_field (optV p.connectivity) PyType.tStr vNone
  let (ndp, g) := randint 10000 100000 g
  let dp := normalize_field (optV p.dealer_price_dp) PyType.tFloat (vInt (ndp : Int))
  let (nmrp, g) := randint 15000 120000 g
  let mrp := normalize_field (optV p.mrp) PyType.tFloat (vInt (nmrp : Int))
  let st := { st with g := g }
  match lookupOrInsertProduct fail name code category subcat ram storage conn dp mrp st with
  | Except.error e => Except.error e
  | Except.ok (pid, st) =>
    let support := normalize_field (optV p.support_type) PyType.tStr schemeTypeV
    let ptype := normalize_field (optV p.payout_type) PyType.tStr (vStr "Fixed")
    let pam := normalize_field (optV p.payout_amount) PyType.tFloat (vFloat 1000)
    let punit := normalize_field (optV p.payout_unit) PyType.tStr (vStr "INR")
    let dc := normalize_field (optV p.dealer_contribution) PyType.tFloat (vFloat 0)
    let tp := normalize_field (optV p.total_payout) PyType.tFloat pam
    let idi := if pyTruthy (p.is_dealer_incentive.getD (vBool true)) then 1 else 0
    let ibo := if pyTruthy (p.is_bundle_offer.getD (vBool false)) then 1 else 0
    let bp := normalize_field (optV p.bundle_price) PyType.tFloat vNone
    let iuo := if pyTruthy (p.is_upgrade_offer.getD (vBool false)) then 1 else 0
    let isb := if pyTruthy (p.is_slab_based.getD (vBool false)) then 1 else 0
    let fid := normalize_field (optV p.free_item_description) PyType.tStr vNone
    txInsert fail (fun db =>
      { db with scheme_products := db.scheme_products ++
        [⟨schemeId, pid, support, ptype, pam, punit, dc, tp, idi, ibo, bp, iuo, isb, fid⟩] }) st

def processProducts (fail : FailOracle) (schemeId : Nat) (schemeTypeV : PyVal) :
    List ExtractedProduct → TxState → Except Unit TxState
  | [], st => Except.ok st
  | p :: ps, st => do
    processProducts fail schemeId schemeTypeV ps
      (← processProduct fail schemeId schemeTypeV p st)

/-- Per-rule body of the rules loop (lines 1010-1025). -/
def processRule (fail : FailOracle) (schemeId : Nat) (r : ExtractedRule)
    (st : TxState) : Except Unit TxState :=
  let rt := normalize_field (optV r.rule_type) PyType.tStr (vStr "General")
  let rd := normalize_field (optV r.rule_description) PyType.tStr (vStr "No description")
  let rv := normalize_field (optV r.rule_value) PyType.tStr vNone
  txInsert fail (fun db =>
    { db with scheme_rules := db.scheme_rules ++ [⟨schemeId, rt, rd, rv⟩] }) st

def processRules (fail : FailOracle) (schemeId : Nat) :
    List ExtractedRule → TxState → Except Unit TxState
  | [], st => Except.ok st
  | r :: rs, st => do
    processRules fail schemeId rs (← processRule fail schemeId r st)

/-- The transaction body of the database-write section of process_pdf
(lines 900-1027): normalize the scheme fields, insert the scheme row,
reconcile and insert each product, insert each rule. -/
def process_pdf_run (db : DB) (sd : StructuredData) (docName textPath : String)
    (fail : FailOracle) (g : Rng) : Except Unit TxState :=
  let sn := normalize_field (optV sd.scheme_name) PyType.tStr
    (vStr ("Scheme from " ++ docName))
  let sty := normalize_field (optV sd.scheme_type) PyType.tStr (vStr "Special Support")
  let sps := normalize_field (optV sd.scheme_period_start) PyType.tStr (vStr "2023-01-01")
  let spe := normalize_field (optV sd.scheme_period_end) PyType.tStr (vStr "2023-12-31")
  let reg := normalize_field (optV sd.applicable_region) PyType.tStr (vStr "All India")
  let dte := normalize_field (optV sd.dealer_type_eligibility) PyType.tStr
    (vStr "All Dealers")
  let sid := db.next_scheme_id
  do
    let st1 ← txInsert fail (fun db0 =>
      { db0 with
        schemes := db0.schemes ++
          [⟨sid, sn, sty, sps, spe, reg, dte, docName, textPath, "Active", "Pending"⟩],
        next_scheme_id := sid + 1 }) ⟨db, 0, g⟩
    let st2 ← processProducts fail sid sty sd.products st1
    processRules fail sid sd.scheme_rules st2

/-- The database-write section of process_pdf (lines 897-1037): run the
transaction; commit on success, roll back (undoing every uncommitted write)
and report False on any failure. -/
def process_pdf_persist (db : DB) (sd : StructuredData) (docName textPath : String)
    (fail : FailOracle) (g : Rng) : Bool × DB :=
  match process_pdf_run db sd docName textPath fail g with
  | Except.ok st => (true, st.db)
  | Except.error _ => (false, db)

/-! ## Claims about the Language-Model Extraction Adapter -/

/-- Claim C1: for every (text, document_name), if a language-model client
is configured (truthy client and inference profile) but the service
invocation fails for any reason, extract_structured_data_from_text returns
exactly the result of the rule-based Pattern Extractor on the same inputs,
and never surfaces an error to the caller. -/
theorem lm_adapter_falls_back (text docName : String) (c : LmClient) (a : String)
    (g : Rng) (e : InvokeError) (ha : a ≠ "")
    (hf : c.invoke a (buildPrompt docName text) = Except.error e) :
    extract_structured_data_from_text text docName (some c) (some a) g =
      (some (rule_based_extraction text docName g).1,
        (rule_based_extraction text docName g).2) := by
  simp [extract_structured_data_from_text, ha, hf]

def alwaysFailingClient : LmClient := ⟨fun _ _ => Except.error InvokeError.network⟩

/-- Witness for C1 at a concrete input. -/
theorem lm_adapter_falls_back_witness :
    extract_structured_data_from_text "some text" "doc.pdf"
        (some alwaysFailingClient) (some "arn:model") ⟨fun _ => 0, 0⟩ =
      (some (rule_based_extraction "some text" "doc.pdf" ⟨fun _ => 0, 0⟩).1,
        (rule_based_extraction "some text" "doc.pdf" ⟨fun _ => 0, 0⟩).2) :=
  lm_adapter_falls_back "some text" "doc.pdf" alwaysFailingClient "arn:model"
    ⟨fun _ => 0, 0⟩ InvokeError.network (by decide) rfl

/-- Claim C5: for every (text, document_name), the adapter driven by a
client whose invocation always fails produces byte-for-byte the same result
as calling the Pattern Extractor directly on the same inputs. -/
theorem lm_adapter_roundtrip (c : LmClient)
    (hc : ∀ a p, exceptIsOk (c.invoke a p) = false) :
    ∀ (text docName a : String) (g : Rng), a ≠ "" →
      (extract_structured_data_from_text text docName (some c) (some a) g).1 =
        some (rule_based_extraction text docName g).1 := by
  intro text docName a g ha
  cases hi : c.invoke a (buildPrompt docName text) with
  | ok sd =>
    have h2 := hc a (buildPrompt docName text)
    rw [hi] at h2
    simp [exceptIsOk] at h2
  | error e => simp [extract_structured_data_from_text, ha, hi]

/-- Witness for C5 at a concrete input. -/
theorem lm_adapter_roundtrip_witness :
    (extract_structured_data_from_text "t" "d.pdf" (some alwaysFailingClient)
        (some "arn:model") ⟨fun _ => 0, 0⟩).1 =
      some (rule_based_extraction "t" "d.pdf" ⟨fun _ => 0, 0⟩).1 :=
  lm_adapter_roundtrip alwaysFailingClient (fun _ _ => rfl) "t" "d.pdf" "arn:model"
    ⟨fun _ => 0, 0⟩ (by decide)

/-! ## Claims about the Record Reconciler -/

/-- Claim C4: a product whose normalized (product_name, product_code) pair
exactly matches an existing catalog row is reconciled by reusing that first
matching row's product_id; the products table is left completely unchanged
(no new row, no mutation of stored attributes, whatever the freshly
extracted attribute values are), and the step consumes no write operation. -/
theorem reconcile_reuses_catalog_row (fail : FailOracle)
    (name code category subcat ram storage conn dp mrp : PyVal)
    (st : TxState) (row : ProductRow)
    (h : st.db.products.find? (fun r => sqlEqVal r.product_name name &&
        sqlEqVal r.product_code code) = some row) :
    lookupOrInsertProduct fail name code category subcat ram storage conn dp mrp st =
      Except.ok (row.product_id, st) := by
  simp [lookupOrInsertProduct, h]

def catalogRowS21FE : ProductRow :=
  ⟨4, vStr "Samsung Galaxy S21 FE", vStr "SM-G990B", vStr "Mobile", vStr "S Series",
    vStr "8GB", vStr "128GB", vStr "5G", vFloat 49999, vFloat 54999⟩

def dbWithS21FE : DB := ⟨[], [catalogRowS21FE], [], [], 1, 5⟩

/-- Witness for C4: reconciling against a catalog holding the
Samsung Galaxy S21 FE row with differing freshly extracted attributes
reuses identity 4 and leaves the state untouched. -/
theorem reconcile_reuses_catalog_row_witness :
    lookupOrInsertProduct (fun _ => false) (vStr "Samsung Galaxy S21 FE")
        (vStr "SM-G990B") (vStr "Tablet") (vStr "Other") (vStr "12GB") (vStr "256GB")
        (vStr "4G") (vInt 11111) (vInt 22222)
        ⟨dbWithS21FE, 1, ⟨fun _ => 0, 0⟩⟩ =
      Except.ok (4, ⟨dbWithS21FE, 1, ⟨fun _ => 0, 0⟩⟩) :=
  reconcile_reuses_catalog_row (fun _ => false) (vStr "Samsung Galaxy S21 FE")
    (vStr "SM-G990B") (vStr "Tablet") (vStr "Other") (vStr "12GB") (vStr "256GB")
    (vStr "4G") (vInt 11111) (vInt 22222) ⟨dbWithS21FE, 1, ⟨fun _ => 0, 0⟩⟩
    catalogRowS21FE rfl

/-! ## Claim C3: atomicity of persistence -/

lemma processProduct_fails (fail : FailOracle) (sid : Nat) (sty : PyVal)
    (p : ExtractedProduct) (st : TxState) (hop : 1 ≤ st.op)
    (hf : ∀ k, 1 ≤ k → fail k = true) :
    processProduct fail sid sty p st = Except.error () := by
  have hfop : fail st.op = true := hf st.op hop
  unfold processProduct lookupOrInsertProduct txInsert
  simp only [hfop, if_true]
  split
  · rfl
  · rename_i x pid st2 heq
    split at heq
    · rename_i row hfind
      injection heq with hpq
      injection hpq with h1 h2
      rw [← h2]
      simp [hfop]
    · simp [Except.map] at heq

lemma processProducts_cons_fails (fail : FailOracle) (sid : Nat) (sty : PyVal)
    (p : ExtractedProduct) (ps : List ExtractedProduct) (st : TxState)
    (hop : 1 ≤ st.op) (hf : ∀ k, 1 ≤ k → fail k = true) :
    processProducts fail sid sty (p :: ps) st = Except.error () := by
  simp [processProducts, processProduct_fails fail sid sty p st hop hf,
    Bind.bind, Except.bind]

lemma processRule_fails (fail : FailOracle) (sid : Nat) (r : ExtractedRule)
    (st : TxState) (hop : 1 ≤ st.op) (hf : ∀ k, 1 ≤ k → fail k = true) :
    processRule fail sid r st = Except.error () := by
  have hfop : fail st.op = true := hf st.op hop
  simp [processRule, txInsert, hfop]

lemma processRules_cons_fails (fail : FailOracle) (sid : Nat) (r : ExtractedRule)
    (rs : List ExtractedRule) (st : TxState)
    (hop : 1 ≤ st.op) (hf : ∀ k, 1 ≤ k → fail k = true) :
    processRules fail sid (r :: rs) st = Except.error () := by
  simp [processRules, processRule_fails fail sid r st hop hf, Bind.bind, Except.bind]

lemma run_tail_fails (fail : FailOracle) (sid : Nat) (sty : PyVal)
    (ps : List ExtractedProduct) (rs : List ExtractedRule) (st : TxState)
    (hop : 1 ≤ st.op) (hf : ∀ k, 1 ≤ k → fail k = true) (hrs : rs ≠ []) :
    (processProducts fail sid sty ps st >>= fun st2 =>
      processRules fail sid rs st2) = Except.error () := by
  cases ps with
  | nil =>
    cases rs with
    | nil => exact absurd rfl hrs
    | cons r rs2 =>
      simp [processProducts, Bind.bind, Except.bind,
        processRules_cons_fails fail sid r rs2 st hop hf]
  | cons p ps2 =>
    rw [show (processProducts fail sid sty (p :: ps2) st >>= fun st2 =>
        processRules fail sid rs st2) =
        (Except.bind (processProducts fail sid sty (p :: ps2) st) fun st2 =>
          processRules fail sid rs st2) from rfl,
      processProducts_cons_fails fail sid sty p ps2 st hop hf]
    rfl

/-- Claim C3: persistence is atomic.  First conjunct: whenever
process_pdf_persist reports failure, the store is exactly the initial
store (zero rows from the operation remain) and the failure is a definite
False value, not an exception.  Second conjunct: injecting a failure into
every write after the scheme insert (in particular before the rule inserts,
which exist) makes the operation report (False, unchanged store). -/
theorem process_pdf_persist_atomic (db : DB) (sd : StructuredData)
    (docName textPath : String) (fail : FailOracle) (g : Rng) :
    ((process_pdf_persist db sd docName textPath fail g).1 = false →
      (process_pdf_persist db sd docName textPath fail g).2 = db)
    ∧ (fail 0 = false → (∀ k, 1 ≤ k → fail k = true) → sd.scheme_rules ≠ [] →
        process_pdf_persist db sd docName textPath fail g = (false, db)) := by
  constructor
  · unfold process_pdf_persist
    split
    · intro h; simp at h
    · intro _; rfl
  · intro h0 hf hrules
    have hrun : process_pdf_run db sd docName textPath fail g = Except.error () := by
      unfold process_pdf_run
      simp only [txInsert, h0, Bool.false_eq_true, if_false, Bind.bind, Except.bind]
      exact run_tail_fails fail _ _ sd.products sd.scheme_rules _ (by simp) hf hrules
    unfold process_pdf_persist
    rw [hrun]

def emptyDB : DB := ⟨[], [], [], [], 1, 1⟩

def sdOneRule : StructuredData :=
  ⟨none, none, none, none, none, none, [],
    [⟨some (vStr "Eligibility"), some (vStr "Applicable for All Dealers"), none⟩]⟩

/-- Witness for C3: with every write after the scheme insert failing, the
persistence of a result carrying one rule reports False and leaves the
store untouched. -/
theorem process_pdf_persist_atomic_witness :
    process_pdf_persist emptyDB sdOneRule "doc.pdf" "doc.txt"
        (fun k => decide (1 ≤ k)) ⟨fun _ => 0, 0⟩ = (false, emptyDB) :=
  (process_pdf_persist_atomic emptyDB sdOneRule "doc.pdf" "doc.txt"
      (fun k => decide (1 ≤ k)) ⟨fun _ => 0, 0⟩).2
    (by decide) (fun k hk => decide_eq_true hk) (by intro h; simp [sdOneRule] at h)

/-! ## Claims about the Pattern Extractor -/

lemma rbe_scheme_type (text docName : String) (g : Rng) :
    (rule_based_extraction text docName g).1.scheme_type =
      some (vStr (scheme_type_of docName text)) := rfl

lemma rbe_period_start (text docName : String) (g : Rng) :
    (rule_based_extraction text docName g).1.scheme_period_start =
      some (vStr (computePeriod (findallDate text) "2023-01-01" "2023-12-31").1) := rfl

lemma rbe_period_end (text docName : String) (g : Rng) :
    (rule_based_extraction text docName g).1.scheme_period_end =
      some (vStr (computePeriod (findallDate text) "2023-01-01" "2023-12-31").2) := rfl

/-- Claim C8, amended: the fallback scheme type follows the keyword scan in
priority order RCM, then Upgrade, then Bundle, with default Special
Support; however the keyword checked against the document name in the
second branch is the full phrase Upgrade Program (only the text is scanned
for the bare keyword Upgrade), so a document name containing Upgrade alone
does not select the Upgrade Program type. -/
theorem scheme_type_priority (text docName : String) (g : Rng) :
    ((containsSub docName "RCM" || containsSub text "RCM") = true →
      (rule_based_extraction text docName g).1.scheme_type = some (vStr "RCM"))
    ∧ ((containsSub docName "RCM" || containsSub text "RCM") = false →
      (containsSub docName "Upgrade Program" || containsSub text "Upgrade") = true →
      (rule_based_extraction text docName g).1.scheme_type =
        some (vStr "Upgrade Program"))
    ∧ ((containsSub docName "RCM" || containsSub text "RCM") = false →
      (containsSub docName "Upgrade Program" || containsSub text "Upgrade") = false →
      (containsSub docName "Bundle" || containsSub text "Bundle") = true →
      (rule_based_extraction text docName g).1.scheme_type = some (vStr "Bundle Offer"))
    ∧ ((containsSub docName "RCM" || containsSub text "RCM") = false →
      (containsSub docName "Upgrade Program" || containsSub text "Upgrade") = false →
      (containsSub docName "Bundle" || containsSub text "Bundle") = false →
      (rule_based_extraction text docName g).1.scheme_type =
        some (vStr "Special Support")) := by
  refine ⟨?_, ?_, ?_, ?_⟩
  · intro h1
    rw [rbe_scheme_type]
    simp [scheme_type_of, h1]
  · intro h1 h2
    rw [rbe_scheme_type]
    simp [scheme_type_of, h1, h2]
  · intro h1 h2 h3
    rw [rbe_scheme_type]
    simp [scheme_type_of, h1, h2, h3]
  · intro h1 h2 h3
    rw [rbe_scheme_type]
    simp [scheme_type_of, h1, h2, h3]

/-- Witness for the amended C8 at a concrete input: a document name
carrying the full phrase selects Upgrade Program with no occurrence in the
text. -/
theorem scheme_type_priority_witness :
    (rule_based_extraction "" "x_Upgrade Program.pdf" ⟨fun _ => 0, 0⟩).1.scheme_type =
      some (vStr "Upgrade Program") :=
  (scheme_type_priority "" "x_Upgrade Program.pdf" ⟨fun _ => 0, 0⟩).2.1
    (by decide) (by decide)

/-- Counterexample for C8 as stated: the document name Upgrade_S23.pdf
contains the keyword Upgrade (and the empty text does not), yet the scheme
type is Special Support, not Upgrade Program. -/
theorem scheme_type_upgrade_docname_counterexample :
    containsSub "Upgrade_S23.pdf" "Upgrade" = true ∧
    containsSub "" "Upgrade" = false ∧
    (rule_based_extraction "" "Upgrade_S23.pdf" ⟨fun _ => 0, 0⟩).1.scheme_type =
      some (vStr "Special Support") ∧
    "Special Support" ≠ "Upgrade Program" :=
  ⟨by decide, by decide, rfl, by decide⟩

/-- Claim C6, amended: on empty text, provided the document name does not
trigger the scheme-type keyword scan (it contains none of RCM, Upgrade
Program, Bundle), the fallback record has all scalar fields at the
documented defaults, exactly one default product (Galaxy S23 with payout
2000.0), and exactly the two synthesized rules, Eligibility first and
Period second. -/
theorem fallback_empty_text_defaults (docName : String) (g : Rng)
    (h1 : containsSub docName "RCM" = false)
    (h2 : containsSub docName "Upgrade Program" = false)
    (h3 : containsSub docName "Bundle" = false) :
    (rule_based_extraction "" docName g).1.scheme_type =
      some (vStr "Special Support") ∧
    (rule_based_extraction "" docName g).1.scheme_period_start =
      some (vStr "2023-01-01") ∧
    (rule_based_extraction "" docName g).1.scheme_period_end =
      some (vStr "2023-12-31") ∧
    (rule_based_extraction "" docName g).1.applicable_region =
      some (vStr "All India") ∧
    (rule_based_extraction "" docName g).1.dealer_type_eligibility =
      some (vStr "All Dealers") ∧
    ((rule_based_extraction "" docName g).1.products.map fun p => p.product_name) =
      [some (vStr "Galaxy S23")] ∧
    ((rule_based_extraction "" docName g).1.products.map fun p => p.payout_amount) =
      [some (vFloat 2000)] ∧
    (rule_based_extraction "" docName g).1.scheme_rules =
      [⟨some (vStr "Eligibility"), some (vStr "Applicable for All Dealers"),
        some (vStr "All Dealers")⟩,
       ⟨some (vStr "Period"), some (vStr "Valid from 2023-01-01 to 2023-12-31"),
        some (vStr "2023-01-01 to 2023-12-31")⟩] := by
  refine ⟨?_, rfl, rfl, rfl, rfl, rfl, rfl, rfl⟩
  rw [rbe_scheme_type]
  unfold scheme_type_of
  rw [h1, h2, h3]
  rfl

/-- Witness for the amended C6 at a concrete document name. -/
theorem fallback_empty_text_defaults_witness :
    (rule_based_extraction "" "doc.pdf" ⟨fun _ => 0, 0⟩).1.scheme_type =
      some (vStr "Special Support") :=
  (fallback_empty_text_defaults "doc.pdf" ⟨fun _ => 0, 0⟩ rfl rfl rfl).1

/-- Counterexample for C6 as stated (for the empty text and any document
name): a document name containing RCM flips the scheme type away from the
documented default. -/
theorem fallback_defaults_counterexample :
    (rule_based_extraction "" "RCM.pdf" ⟨fun _ => 0, 0⟩).1.scheme_type =
      some (vStr "RCM") ∧
    "RCM" ≠ "Special Support" :=
  ⟨rfl, by decide⟩

lemma take_two_eq {l : List String} {a b : String} (h : l.take 2 = [a, b]) :
    ∃ t, l = a :: b :: t := by
  cases l with
  | nil => simp at h
  | cons x xs =>
    cases xs with
    | nil => simp at h
    | cons y ys =>
      simp [List.take] at h
      exact ⟨ys, by rw [h.1, h.2]⟩

lemma computePeriod_cons (a b : String) (t : List String) (dS dE : String) :
    computePeriod (a :: b :: t) dS dE =
      match parseDateToken a with
      | Except.error _ => (dS, dE)
      | Except.ok os =>
        match parseDateToken b with
        | Except.error _ => (os.getD dS, dE)
        | Except.ok oe => (os.getD dS, oe.getD dE) := by
  unfold computePeriod
  rw [if_pos (show 2 ≤ (a :: b :: t).length by simp)]
  have e0 : (a :: b :: t).getD 0 "" = a := rfl
  have e1 : (a :: b :: t).getD 1 "" = b := rfl
  rw [e0, e1]

/-- Claim C7, amended: date tokens are normalized assuming day-month-year
order with two-digit years prefixed by 20, so first matches 01/02/23 and
15-06-2024 yield the period 2023-02-01 to 2024-06-15; but a parse failure
does not reset already assigned fields: when the first date parses and the
second fails (for example the mixed-separator token 1/2-24), period_start
keeps the parsed value while only period_end stays at its default. -/
theorem period_normalization (text docName : String) (g : Rng) :
    ((findallDate text).take 2 = ["01/02/23", "15-06-2024"] →
      (rule_based_extraction text docName g).1.scheme_period_start =
        some (vStr "2023-02-01") ∧
      (rule_based_extraction text docName g).1.scheme_period_end =
        some (vStr "2024-06-15"))
    ∧ ((findallDate text).take 2 = ["01/02/23", "1/2-24"] →
      (rule_based_extraction text docName g).1.scheme_period_start =
        some (vStr "2023-02-01") ∧
      (rule_based_extraction text docName g).1.scheme_period_end =
        some (vStr "2023-12-31")) := by
  constructor
  · intro h
    obtain ⟨t, ht⟩ := take_two_eq h
    constructor
    · rw [rbe_period_start, ht, computePeriod_cons]
      rfl
    · rw [rbe_period_end, ht, computePeriod_cons]
      rfl
  · intro h
    obtain ⟨t, ht⟩ := take_two_eq h
    constructor
    · rw [rbe_period_start, ht, computePeriod_cons]
      rfl
    · rw [rbe_period_end, ht, computePeriod_cons]
      rfl

/-- Witness for the amended C7 at a concrete text. -/
theorem period_normalization_witness :
    (rule_based_extraction "01/02/23 15-06-2024" "d.pdf" ⟨fun _ => 0, 0⟩).1.scheme_period_start =
      some (vStr "2023-02-01") ∧
    (rule_based_extraction "01/02/23 15-06-2024" "d.pdf" ⟨fun _ => 0, 0⟩).1.scheme_period_end =
      some (vStr "2024-06-15") :=
  (period_normalization "01/02/23 15-06-2024" "d.pdf" ⟨fun _ => 0, 0⟩).1 rfl

/-- Counterexample for C7 as stated: with first matches 01/02/23 and the
mixed-separator 1/2-24 the start date is applied while the end date keeps
its default, contradicting that on any parse failure both fields keep
their defaults. -/
theorem period_partial_update_counterexample :
    (rule_based_extraction "01/02/23 1/2-24" "d.pdf" ⟨fun _ => 0, 0⟩).1.scheme_period_start =
      some (vStr "2023-02-01") ∧
    (rule_based_extraction "01/02/23 1/2-24" "d.pdf" ⟨fun _ => 0, 0⟩).1.scheme_period_end =
      some (vStr "2023-12-31") ∧
    "2023-02-01" ≠ "2023-01-01" :=
  ⟨rfl, rfl, by decide⟩

/-- Counterexample for C9 as stated: a document body containing all the
required fragments matches the model pattern twice (S23 via the
letter-digits pattern and Galaxy S23 via the Galaxy pattern), so extraction
yields two products, not one. -/
theorem end_to_end_counterexample :
    containsSub "Galaxy S23 Rs. 5,000 All India 01/08/2023 31/08/2023" "Galaxy S23" = true ∧
    containsSub "Galaxy S23 Rs. 5,000 All India 01/08/2023 31/08/2023" "Rs. 5,000" = true ∧
    containsSub "Galaxy S23 Rs. 5,000 All India 01/08/2023 31/08/2023" "All India" = true ∧
    containsSub "Galaxy S23 Rs. 5,000 All India 01/08/2023 31/08/2023" "01/08/2023" = true ∧
    containsSub "Galaxy S23 Rs. 5,000 All India 01/08/2023 31/08/2023" "31/08/2023" = true ∧
    (rule_based_extraction "Galaxy S23 Rs. 5,000 All India 01/08/2023 31/08/2023"
      "08.SpecialSupport_S23.pdf" ⟨fun _ => 0, 0⟩).1.products.length = 2 ∧
    (2 : Nat) ≠ 1 :=
  ⟨by decide, by decide, by decide, by decide, by decide, rfl, by decide⟩

/-- Claim C9, amended: on the scenario document the extraction yields
scheme type Special Support, region All India, period 2023-08-01 to
2023-08-31, and two products named by the two model-pattern matches (S23
and Galaxy S23); the first-enumerated product carries payout_amount 5000.0
taken from the currency match, the other a randomly sampled amount. -/
theorem end_to_end_amended :
    (rule_based_extraction "Galaxy S23 Rs. 5,000 All India 01/08/2023 31/08/2023"
      "08.SpecialSupport_S23.pdf" ⟨fun _ => 0, 0⟩).1.scheme_type =
      some (vStr "Special Support") ∧
    (rule_based_extraction "Galaxy S23 Rs. 5,000 All India 01/08/2023 31/08/2023"
      "08.SpecialSupport_S23.pdf" ⟨fun _ => 0, 0⟩).1.applicable_region =
      some (vStr "All India") ∧
    (rule_based_extraction "Galaxy S23 Rs. 5,000 All India 01/08/2023 31/08/2023"
      "08.SpecialSupport_S23.pdf" ⟨fun _ => 0, 0⟩).1.scheme_period_start =
      some (vStr "2023-08-01") ∧
    (rule_based_extraction "Galaxy S23 Rs. 5,000 All India 01/08/2023 31/08/2023"
      "08.SpecialSupport_S23.pdf" ⟨fun _ => 0, 0⟩).1.scheme_period_end =
      some (vStr "2023-08-31") ∧
    ((rule_based_extraction "Galaxy S23 Rs. 5,000 All India 01/08/2023 31/08/2023"
      "08.SpecialSupport_S23.pdf" ⟨fun _ => 0, 0⟩).1.products.map fun p => p.product_name) =
      [some (vStr "S23"), some (vStr "Galaxy S23")] ∧
    ((rule_based_extraction "Galaxy S23 Rs. 5,000 All India 01/08/2023 31/08/2023"
      "08.SpecialSupport_S23.pdf" ⟨fun _ => 0, 0⟩).1.products.map fun p =>
        p.payout_amount).take 1 = [some (vFloat 5000)] :=
  ⟨rfl, rfl, rfl, rfl, rfl, rfl⟩

/-! ## Claim C10: the default-product branch -/

lemma hasSub_exists : ∀ (hay pat : List Char), hasSub hay pat = true →
    ∃ i, isPfx pat (hay.drop i) = true := by
  intro hay
  induction hay with
  | nil =>
    intro pat h
    simp only [hasSub, List.isEmpty_iff] at h
    subst h
    exact ⟨0, rfl⟩
  | cons c cs ih =>
    intro pat h
    simp only [hasSub, Bool.or_eq_true] at h
    cases h with
    | inl h1 => exact ⟨0, h1⟩
    | inr h2 =>
      obtain ⟨i, hi⟩ := ih pat h2
      exact ⟨i + 1, hi⟩

lemma isPfx_append : ∀ (p l : List Char), isPfx p l = true → ∃ t, l = p ++ t := by
  intro p
  induction p with
  | nil => intro l _; exact ⟨l, rfl⟩
  | cons a as ih =>
    intro l h
    cases l with
    | nil => simp [isPfx] at h
    | cons c cs =>
      simp only [isPfx, Bool.and_eq_true, decide_eq_true_eq] at h
      obtain ⟨h1, h2⟩ := h
      obtain ⟨t, ht⟩ := ih cs h2
      exact ⟨t, by rw [ht, h1]; rfl⟩

lemma modelMatchAt_s21 (rest : List Char) :
    (modelMatchAt ('S' :: '2' :: '1' :: ' ' :: rest)).isSome = true := by
  have h2 : isDigitC '2' = true := rfl
  have h1 : isDigitC '1' = true := rfl
  have hsp : isDigitC ' ' = false := rfl
  have hS : isUpperC 'S' = true := rfl
  have hspu : isUpperC ' ' = false := rfl
  simp [modelMatchAt, List.takeWhile_cons, List.dropWhile_cons, h2, h1, hsp, hS, hspu]

lemma findallAux_ne_nil (m : List Char → Option (List Char × List Char))
    (hm : m [] = none) :
    ∀ (fuel : Nat) (s : List Char), s.length ≤ fuel →
      (∃ i, (m (s.drop i)).isSome = true) → findallAux m fuel s ≠ [] := by
  intro fuel
  induction fuel with
  | zero =>
    intro s hlen hex
    obtain ⟨i, hi⟩ := hex
    have hs : s = [] := List.length_eq_zero.mp (Nat.le_zero.mp hlen)
    subst hs
    rw [List.drop_nil, hm] at hi
    simp at hi
  | succ n ih =>
    intro s hlen hex
    cases s with
    | nil =>
      obtain ⟨i, hi⟩ := hex
      rw [List.drop_nil, hm] at hi
      simp at hi
    | cons c cs =>
      obtain ⟨i, hi⟩ := hex
      cases hmatch : m (c :: cs) with
      | some p =>
        obtain ⟨g1, r1⟩ := p
        simp [findallAux, hmatch]
      | none =>
        simp only [findallAux, hmatch]
        apply ih cs (Nat.le_of_succ_le_succ (by simpa using hlen))
        cases i with
        | zero =>
          rw [List.drop_zero] at hi
          rw [hmatch] at hi
          simp at hi
        | succ j => exact ⟨j, hi⟩

lemma found_models_ne_nil_of_s21fe (text : String)
    (h : containsSub text "S21 FE" = true) : found_models text ≠ [] := by
  unfold containsSub at h
  obtain ⟨i, hi⟩ := hasSub_exists text.toList ("S21 FE".toList) h
  obtain ⟨t, ht⟩ := isPfx_append _ _ hi
  have hsome : (modelMatchAt (text.toList.drop i)).isSome = true := by
    rw [ht]
    exact modelMatchAt_s21 ('F' :: 'E' :: t)
  have hfm : findallModel text ≠ [] :=
    findallAux_ne_nil modelMatchAt rfl text.toList.length text.toList
      (Nat.le_refl _) ⟨i, hsome⟩
  unfold found_models
  cases hfl : findallModel text with
  | nil => exact absurd hfl hfm
  | cons x xs =>
    intro hc
    simp only [List.cons_append] at hc
    rw [show dedupFirstAux [] (x :: (xs ++ findallGalaxy text ++ findallTab text)) =
      x :: dedupFirstAux [x] (xs ++ findallGalaxy text ++ findallTab text) from rfl] at hc
    exact List.noConfusion hc

lemma build_products_nil (ty : String) (fi am : List String) (i : Nat) (g : Rng) :
    build_products ty fi am [] i g = ([], g) := rfl

/-- Claim C10: whenever the Pattern Extractor finds no model-pattern match
(the default-product branch), the synthesized default product is named
Galaxy S23 with payout_amount 2000.0; the alternative default name
Galaxy S21 FE is unreachable because any text containing S21 FE matches the
letter-digits model pattern on S21 and so yields a non-empty model set. -/
theorem default_product_branch (text docName : String) (g : Rng) :
    (found_models text = [] →
      ((rule_based_extraction text docName g).1.products.map fun p => p.product_name) =
        [some (vStr "Galaxy S23")] ∧
      ((rule_based_extraction text docName g).1.products.map fun p => p.payout_amount) =
        [some (vFloat 2000)])
    ∧ (containsSub text "S21 FE" = true → found_models text ≠ []) := by
  constructor
  · intro hfm
    have hs21 : containsSub text "S21 FE" = false := by
      cases hcs : containsSub text "S21 FE" with
      | false => rfl
      | true => exact absurd hfm (found_models_ne_nil_of_s21fe text hcs)
    have hproj : (rule_based_extraction text docName g).1.products =
        [(default_product text (scheme_type_of docName text) (free_items_of text) g).1] := by
      simp only [rule_based_extraction, hfm]
      rfl
    have hname : (default_product text (scheme_type_of docName text)
        (free_items_of text) g).1.product_name =
        some (vStr (if containsSub text "S21 FE" = true
          then "Galaxy S21 FE" else "Galaxy S23")) := rfl
    constructor
    · rw [hproj, List.map_singleton, hname, hs21]
      simp
    · rw [hproj, List.map_singleton]
      rfl
  · exact found_models_ne_nil_of_s21fe text

/-- Witness for C10: on the empty text the model set is empty and the
default Galaxy S23 product with payout 2000.0 is synthesized. -/
theorem default_product_branch_witness :
    ((rule_based_extraction "" "doc2.pdf" ⟨fun _ => 0, 0⟩).1.products.map fun p =>
        p.product_name) = [some (vStr "Galaxy S23")] ∧
    ((rule_based_extraction "" "doc2.pdf" ⟨fun _ => 0, 0⟩).1.products.map fun p =>
        p.payout_amount) = [some (vFloat 2000)] :=
  (default_product_branch "" "doc2.pdf" ⟨fun _ => 0, 0⟩).1 rfl
